import Mathlib

/-!
# Formal model of the beach-conditions webhook reconciler

The repository `get-moca/beaches` contains four revisions of one Netlify
webhook handler that reconciles scraped beach records into a `beaches`
dimension table and an append-only `beach_conditions` fact table:

* `V1` — `src/netlify/functions/webhook.js`, first section: inline payload
  (`eventData.data || data || []`), `place_id` derived from the name only,
  lookup by `place_id`, counters `processed`/`errors`.
* `V2` — same file, second section: dataset-id payload, `place_id` derived
  from name + municipality with NFD accent stripping, lookup by
  `(name, municipality)`, counters `created`/`updated`/`errors`.
  (The source declares `const municipality` twice with the same value; the
  model uses the single evident binding.)
* `V3` — same file, third section: update-only revision; only its
  condition-row construction (lines 382–395) is needed here.
* `V4` — `src/unnamed/part_000`: lookup by `source_url`, unconditional
  dimension update on match, `results` counters, and a 24-hour retention
  prune of the fact table after the loop.

Database calls are modelled as pure operations on an explicit `DB` state;
each fallible write is driven by an explicit failure flag, mirroring the
`{ data, error }` results the source inspects.  Timestamps (ISO strings in
the source) are modelled as integers ordered like the strings they stand
for.  Floating-point latitude/longitude parsed by `V1` is never read by any
property and is omitted from the row model.
-/

/-- JS truthiness of an optional string field: `undefined`, `null` and `""`
are falsy, every other string is truthy. -/
def truthyStr : Option String → Bool
  | none => false
  | some s => !s.isEmpty

/-- JS `x || d` for an optional string field: the default is used when the
field is absent, `null` or the empty string. -/
def orDefault (o : Option String) (d : String) : String :=
  match o with
  | some s => if s.isEmpty then d else s
  | none => d

/-- JS `x || null` for an optional numeric field: `0` is falsy and is turned
into `null` as well. -/
def orNullInt (o : Option Int) : Option Int :=
  match o with
  | some v => if v = 0 then none else some v
  | none => none

/-- JS `x || d` for an optional numeric timestamp (`0` is falsy). -/
def orElseInt (o : Option Int) (d : Int) : Int :=
  match o with
  | some v => if v = 0 then d else v
  | none => d

/-- JS `Boolean(x)` on an optional boolean field: `undefined` and `null`
coerce to `false`. -/
def boolify : Option Bool → Bool
  | some true => true
  | _ => false

/-- A raw scraped record as delivered by the crawler: loosely typed, every
field may be absent. -/
structure Rec where
  name : Option String := none
  municipality : Option String := none
  source_url : Option String := none
  occupancy_percent : Option Int := none
  occupancy_percent_raw : Option Int := none
  occupancy_display_value : Option String := none
  flag_status : Option String := none
  has_jellyfish : Option Bool := none
  air_temperature : Option Int := none
  water_temperature : Option Int := none
  wind_speed : Option Int := none
  wave_height : Option Int := none
  scraped_at : Option Int := none
  deriving DecidableEq, Repr

/-- A `beaches` dimension row.  Latitude/longitude are populated out of band
(or parsed as floats in `V1`) and are never read back by the handler, so
they are not modelled. -/
structure BeachRow where
  id : Nat
  place_id : Option String := none
  name : String := ""
  municipality : Option String := none
  source_url : Option String := none
  description : Option String := none
  updated_at : Option Int := none
  deriving DecidableEq, Repr

/-- A `beach_conditions` fact row; the union of the columns the four
variants write (`recorded_at` in `V1`–`V3`, `scraped_at` in `V4`). -/
structure CondRow where
  beach_id : Nat
  occupancy_percent : Option Int := none
  occupancy_percent_raw : Option Int := none
  occupancy_display_value : Option String := none
  flag_status : Option String := none
  has_jellyfish : Option Bool := none
  air_temperature : Option Int := none
  water_temperature : Option Int := none
  wind_speed : Option Int := none
  wave_height : Option Int := none
  recorded_at : Option Int := none
  scraped_at : Option Int := none
  source : Option String := none
  deriving DecidableEq, Repr

/-- The relational store: both tables plus the id sequence backing the
`beaches.id` primary key. -/
structure DB where
  beaches : List BeachRow := []
  conds : List CondRow := []
  nextId : Nat := 0
  deriving DecidableEq, Repr

/-- PostgREST `.single()` / `.maybeSingle()` as the handlers use them: the
row when exactly one row matches, otherwise `null` (zero or multiple
matches yield no data, and every variant treats that as "not found"). -/
def matchOne (l : List BeachRow) (p : BeachRow → Bool) : Option BeachRow :=
  match l.filter p with
  | [b] => some b
  | _ => none

/-- `insert(...).select('id').single()` on `beaches`: appends the row built
from the next sequence value and returns the new id. -/
def insertBeach (db : DB) (mk : Nat → BeachRow) : DB × Nat :=
  ({ db with beaches := db.beaches ++ [mk db.nextId], nextId := db.nextId + 1 }, db.nextId)

/-- `insert(...)` on `beach_conditions`: appends one fact row. -/
def insertCond (db : DB) (c : CondRow) : DB :=
  { db with conds := db.conds ++ [c] }

/-- `update(...).eq('id', bid)` on `beaches`: rewrites the matching rows,
leaving every other row untouched. -/
def updateRows (db : DB) (bid : Nat) (f : BeachRow → BeachRow) : DB :=
  { db with beaches := db.beaches.map (fun b => if b.id == bid then f b else b) }

/-! ## Slug (`place_id`) derivation

`V1` (webhook.js lines 52–55) lowercases, replaces whitespace runs by `_`
and strips everything outside `[a-z0-9_]`.  `V2` (lines 200–207) appends
the municipality to the name first and additionally applies NFD
normalization, drops combining marks, collapses `_` runs and trims edge
underscores.  Characters are classified by code point. -/

/-- The Unicode combining-mark block `̀`–`ͯ` removed by `V2`. -/
def isCombiningMark (c : Char) : Bool :=
  768 ≤ c.toNat && c.toNat ≤ 879

/-- The JS regex class `\s` (whitespace), by code point. -/
def isJsWhitespace (c : Char) : Bool :=
  c.toNat = 32 || c.toNat = 9 || c.toNat = 10 || c.toNat = 13 || c.toNat = 11 ||
  c.toNat = 12 || c.toNat = 160 || c.toNat = 5760 ||
  (8192 ≤ c.toNat && c.toNat ≤ 8202) || c.toNat = 8232 || c.toNat = 8233 ||
  c.toNat = 8239 || c.toNat = 8287 || c.toNat = 12288 || c.toNat = 65279

/-- The character class `[a-z0-9_]` kept by both slug pipelines. -/
def isSlugChar (c : Char) : Bool :=
  (97 ≤ c.toNat && c.toNat ≤ 122) || (48 ≤ c.toNat && c.toNat ≤ 57) || c.toNat = 95

/-- JS `toLowerCase`, modelled on the Latin range: ASCII `A`–`Z` and the
Latin-1 uppercase letters `À`–`Þ` (except `×`) shift down by 32, everything
else is unchanged. -/
def lowerChar (c : Char) : Char :=
  if (65 ≤ c.toNat && c.toNat ≤ 90) ||
     (192 ≤ c.toNat && c.toNat ≤ 222 && c.toNat ≠ 215) then
    Char.ofNat (c.toNat + 32)
  else c

/-- Character-level NFD decomposition, modelled for the Latin range: ASCII
code points decompose to themselves, precomposed lowercase Latin letters
with diacritics split into the base letter followed by a combining mark
(the pipeline applies this after lowercasing), anything else is left
alone. -/
def decomposeChar (c : Char) : List Char :=
  if c.toNat < 128 then [c]
  else match c with
    | 'à' => ['a', Char.ofNat 768]
    | 'á' => ['a', Char.ofNat 769]
    | 'â' => ['a', Char.ofNat 770]
    | 'ã' => ['a', Char.ofNat 771]
    | 'ä' => ['a', Char.ofNat 776]
    | 'å' => ['a', Char.ofNat 778]
    | 'ç' => ['c', Char.ofNat 807]
    | 'è' => ['e', Char.ofNat 768]
    | 'é' => ['e', Char.ofNat 769]
    | 'ê' => ['e', Char.ofNat 770]
    | 'ë' => ['e', Char.ofNat 776]
    | 'ì' => ['i', Char.ofNat 768]
    | 'í' => ['i', Char.ofNat 769]
    | 'î' => ['i', Char.ofNat 770]
    | 'ï' => ['i', Char.ofNat 776]
    | 'ñ' => ['n', Char.ofNat 771]
    | 'ò' => ['o', Char.ofNat 768]
    | 'ó' => ['o', Char.ofNat 769]
    | 'ô' => ['o', Char.ofNat 770]
    | 'õ' => ['o', Char.ofNat 771]
    | 'ö' => ['o', Char.ofNat 776]
    | 'ù' => ['u', Char.ofNat 768]
    | 'ú' => ['u', Char.ofNat 769]
    | 'û' => ['u', Char.ofNat 770]
    | 'ü' => ['u', Char.ofNat 776]
    | _ => [c]

/-- `.replace(/\s+/g, '_')`: each maximal whitespace run becomes a single
underscore.  The flag records whether the previous character was part of a
whitespace run. -/
def wsRunsAux (prevWs : Bool) : List Char → List Char
  | [] => []
  | c :: cs =>
    if isJsWhitespace c then
      (if prevWs then [] else ['_']) ++ wsRunsAux true cs
    else c :: wsRunsAux false cs

/-- `.replace(/_+/g, '_')`: each maximal underscore run collapses to a
single underscore. -/
def collapseAux (prevU : Bool) : List Char → List Char
  | [] => []
  | c :: cs =>
    if c = '_' then
      (if prevU then [] else ['_']) ++ collapseAux true cs
    else c :: collapseAux false cs

/-- One step of `.replace(/^_|_$/g, '')`: drop a single leading
underscore. -/
def dropLeadingUnderscore (l : List Char) : List Char :=
  match l with
  | [] => []
  | c :: rest => if c = '_' then rest else c :: rest

/-- `.replace(/^_|_$/g, '')`: drop one leading and one trailing
underscore. -/
def trimUnderscores (l : List Char) : List Char :=
  (dropLeadingUnderscore ((dropLeadingUnderscore l).reverse)).reverse

/-- The `V2` slug pipeline on character lists, in source order: lowercase,
NFD, drop combining marks, whitespace runs to `_`, keep `[a-z0-9_]`,
collapse `_` runs, trim edge underscores. -/
def slugCore (l : List Char) : List Char :=
  trimUnderscores (collapseAux false
    (List.filter isSlugChar
      (wsRunsAux false
        (List.filter (fun c => !isCombiningMark c)
          (List.flatten (List.map decomposeChar (List.map lowerChar l)))))))

/-- The `V2` slug transformation on strings (webhook.js lines 200–207). -/
def slugify (s : String) : String :=
  String.mk (slugCore s.data)

/-- The `V2` `place_id`: the slug of `name_municipality`. -/
def placeIdV2 (nm muni : String) : String :=
  slugify (nm ++ "_" ++ muni)

/-- The `V1` slug pipeline (webhook.js lines 52–55): lowercase, whitespace
runs to `_`, keep `[a-z0-9_]`; no accent handling, no collapsing, no
trimming. -/
def placeIdV1 (nm : String) : String :=
  String.mk (List.filter isSlugChar (wsRunsAux false (List.map lowerChar nm.data)))

/-! ## Condition-row construction per variant -/

/-- `V1` fact row (webhook.js lines 96–103): occupancy `parseInt(x) || 0`,
flag defaulted to `"green"`, jellyfish coerced with `Boolean`, timestamp
falling back to ingestion time. -/
def buildCondV1 (r : Rec) (bid : Nat) (now : Int) : CondRow :=
  { beach_id := bid
    occupancy_percent := some (r.occupancy_percent.getD 0)
    flag_status := some (orDefault r.flag_status "green")
    has_jellyfish := some (boolify r.has_jellyfish)
    recorded_at := some (orElseInt r.scraped_at now)
    source := some "apify" }

/-- `V2` fact row (webhook.js lines 268–275): occupancy passed through
unchanged, flag defaulted to `"green"`, jellyfish coerced with
`Boolean`. -/
def buildCondV2 (r : Rec) (bid : Nat) (now : Int) : CondRow :=
  { beach_id := bid
    occupancy_percent := r.occupancy_percent
    flag_status := some (orDefault r.flag_status "green")
    has_jellyfish := some (boolify r.has_jellyfish)
    recorded_at := some (orElseInt r.scraped_at now)
    source := some "apify_scraper" }

/-- `V3` fact row (webhook.js lines 384–395): occupancy and the
environmental readings are `x || null`, flag defaulted to `"green"`,
jellyfish coerced with `Boolean`. -/
def buildCondV3 (r : Rec) (bid : Nat) (now : Int) : CondRow :=
  { beach_id := bid
    occupancy_percent := orNullInt r.occupancy_percent
    flag_status := some (orDefault r.flag_status "green")
    has_jellyfish := some (boolify r.has_jellyfish)
    water_temperature := orNullInt r.water_temperature
    air_temperature := orNullInt r.air_temperature
    wind_speed := orNullInt r.wind_speed
    wave_height := orNullInt r.wave_height
    recorded_at := some (orElseInt r.scraped_at now)
    source := some "apify_live" }

/-- `V4` fact row (part_000 lines 136–147): every measurement field is
passed through unchanged — no flag default, no jellyfish coercion; only
the timestamp falls back to ingestion time. -/
def buildCondV4 (r : Rec) (bid : Nat) (now : Int) : CondRow :=
  { beach_id := bid
    occupancy_percent_raw := r.occupancy_percent_raw
    occupancy_display_value := r.occupancy_display_value
    flag_status := r.flag_status
    has_jellyfish := r.has_jellyfish
    air_temperature := r.air_temperature
    water_temperature := r.water_temperature
    wind_speed := r.wind_speed
    wave_height := r.wave_height
    scraped_at := some (orElseInt r.scraped_at now) }

/-! ## Per-record reconciliation steps

Each step takes explicit failure flags for the fallible database calls of
that variant; a `true` flag makes the corresponding call return an error
exactly as the `{ data, error }` result would. -/

/-- Failure flags for one `V1` record: the dimension insert and the fact
insert can fail. -/
structure FailV1 where
  dim : Bool := false
  cond : Bool := false
  deriving DecidableEq, Repr

/-- `V1` loop state: the store plus the `processed`/`errors` counters. -/
structure StV1 where
  db : DB
  processed : Nat := 0
  errors : Nat := 0
  deriving DecidableEq, Repr

/-- The dimension row the `V1` create branch inserts (webhook.js lines
71–79). -/
def mkBeachV1 (r : Rec) (nm : String) (i : Nat) : BeachRow :=
  { id := i, place_id := some (placeIdV1 nm), name := nm,
    municipality := some (orDefault r.municipality "Unknown") }

/-- One iteration of the `V1` loop (webhook.js lines 47–117).  A record
with no `name` field throws (`name.toLowerCase()` on `undefined`) and is
caught by the per-record handler, which counts an error. -/
def stepV1 (f : FailV1) (now : Int) (r : Rec) (s : StV1) : StV1 :=
  match r.name with
  | none => { s with errors := s.errors + 1 }
  | some nm =>
    match matchOne s.db.beaches (fun b => b.place_id == some (placeIdV1 nm)) with
    | some b =>
      if f.cond then { s with errors := s.errors + 1 }
      else { s with db := insertCond s.db (buildCondV1 r b.id now),
                    processed := s.processed + 1 }
    | none =>
      if f.dim then { s with errors := s.errors + 1 }
      else if f.cond then
        { s with db := (insertBeach s.db (mkBeachV1 r nm)).1,
                 errors := s.errors + 1 }
      else
        { s with db := insertCond (insertBeach s.db (mkBeachV1 r nm)).1
                         (buildCondV1 r (insertBeach s.db (mkBeachV1 r nm)).2 now),
                 processed := s.processed + 1 }

/-- Failure flags for one `V2` record. -/
structure FailV2 where
  dim : Bool := false
  cond : Bool := false
  deriving DecidableEq, Repr

/-- `V2` loop state: the store plus the `created`/`updated`/`errors`
counters. -/
structure StV2 where
  db : DB
  created : Nat := 0
  updated : Nat := 0
  errors : Nat := 0
  deriving DecidableEq, Repr

/-- The `V2` dimension lookup key (webhook.js lines 213–218): exact match
on `name` and `municipality`. -/
def keyV2 (nm muni : String) (b : BeachRow) : Bool :=
  b.name == nm && b.municipality == some muni

/-- The `V2` municipality rewrite applied to the matched row (webhook.js
lines 229–236): only `municipality` and `updated_at` change. -/
def updMuniV2 (muni : String) (now : Int) (x : BeachRow) : BeachRow :=
  { x with municipality := some muni, updated_at := some now }

/-- The dimension row the `V2` create branch inserts (webhook.js lines
240–250). -/
def mkBeachV2 (nm muni : String) (i : Nat) : BeachRow :=
  { id := i, place_id := some (placeIdV2 nm muni), name := nm,
    municipality := some muni,
    description := some ("Beach in " ++ muni) }

/-- The store after the `V2` found branch touched the dimension table: the
municipality is rewritten only when it is a real (non-`"Unknown"`) value. -/
def dimAfterFoundV2 (muni : String) (now : Int) (bid : Nat) (db : DB) : DB :=
  if !muni.isEmpty && muni != "Unknown" then
    updateRows db bid (updMuniV2 muni now)
  else db

/-- One iteration of the `V2` loop (webhook.js lines 189–289).  A record
without a truthy `name` is skipped without touching any counter.  On a
match the municipality is rewritten (with `updated_at`) only when the
derived municipality is not `"Unknown"`; otherwise a fresh dimension row
is inserted.  A fact row is then appended. -/
def stepV2 (f : FailV2) (now : Int) (r : Rec) (s : StV2) : StV2 :=
  if !truthyStr r.name then s
  else
    match matchOne s.db.beaches
        (keyV2 (r.name.getD "") (orDefault r.municipality "Unknown")) with
    | some b =>
      if f.cond then
        { s with db := dimAfterFoundV2 (orDefault r.municipality "Unknown") now b.id s.db,
                 errors := s.errors + 1 }
      else
        { s with db := insertCond
                  (dimAfterFoundV2 (orDefault r.municipality "Unknown") now b.id s.db)
                  (buildCondV2 r b.id now),
                 updated := s.updated + 1 }
    | none =>
      if f.dim then { s with errors := s.errors + 1 }
      else if f.cond then
        { s with db := (insertBeach s.db
                  (mkBeachV2 (r.name.getD "") (orDefault r.municipality "Unknown"))).1,
                 created := s.created + 1, errors := s.errors + 1 }
      else
        { s with db := insertCond
                  (insertBeach s.db
                    (mkBeachV2 (r.name.getD "") (orDefault r.municipality "Unknown"))).1
                  (buildCondV2 r
                    (insertBeach s.db
                      (mkBeachV2 (r.name.getD "") (orDefault r.municipality "Unknown"))).2
                    now),
                 created := s.created + 1, updated := s.updated + 1 }

/-- Failure flags for one `V4` record: the lookup can fail with a real
error (not the "no rows" code `PGRST116`), and the dimension insert, the
dimension update and the fact insert can each fail; all four are thrown
and caught by the per-item handler. -/
structure FailV4 where
  find : Bool := false
  dim : Bool := false
  upd : Bool := false
  cond : Bool := false
  deriving DecidableEq, Repr

/-- `V4` loop state: the store plus the `results` counters of
part_000. -/
structure StV4 where
  db : DB
  processed : Nat := 0
  errors : Nat := 0
  beaches_added : Nat := 0
  conditions_added : Nat := 0
  deriving DecidableEq, Repr

/-- The dimension row the `V4` create branch inserts (part_000 lines
101–110). -/
def mkBeachV4 (r : Rec) (i : Nat) : BeachRow :=
  { id := i, name := r.name.getD "", municipality := r.municipality,
    source_url := r.source_url }

/-- The `V4` rewrite of a matched dimension row (part_000 lines 121–128):
`name` and `municipality` are overwritten unconditionally with the
incoming values and `updated_at` is bumped. -/
def updBeachV4 (r : Rec) (now : Int) (x : BeachRow) : BeachRow :=
  { x with name := r.name.getD "", municipality := r.municipality,
           updated_at := some now }

/-- One iteration of the `V4` loop (part_000 lines 70–160).  A record
missing a truthy `name` or `source_url` increments `errors`.  Lookup is by
`source_url`; on a miss a new dimension row is inserted
(`beaches_added`), on a hit `name`/`municipality` are rewritten
unconditionally with the incoming values and `updated_at` is bumped.  A
fact row is then appended (`conditions_added`, `processed`). -/
def stepV4 (f : FailV4) (now : Int) (r : Rec) (s : StV4) : StV4 :=
  if !(truthyStr r.name && truthyStr r.source_url) then
    { s with errors := s.errors + 1 }
  else if f.find then { s with errors := s.errors + 1 }
  else
    match matchOne s.db.beaches (fun b => b.source_url == r.source_url) with
    | none =>
      if f.dim then { s with errors := s.errors + 1 }
      else if f.cond then
        { s with db := (insertBeach s.db (mkBeachV4 r)).1,
                 beaches_added := s.beaches_added + 1,
                 errors := s.errors + 1 }
      else
        { s with db := insertCond (insertBeach s.db (mkBeachV4 r)).1
                         (buildCondV4 r (insertBeach s.db (mkBeachV4 r)).2 now),
                 beaches_added := s.beaches_added + 1,
                 conditions_added := s.conditions_added + 1,
                 processed := s.processed + 1 }
    | some b =>
      if f.upd then { s with errors := s.errors + 1 }
      else if f.cond then
        { s with db := updateRows s.db b.id (updBeachV4 r now),
                 errors := s.errors + 1 }
      else
        { s with db := insertCond (updateRows s.db b.id (updBeachV4 r now))
                         (buildCondV4 r b.id now),
                 conditions_added := s.conditions_added + 1,
                 processed := s.processed + 1 }

/-! ## Batch loops and handlers -/

/-- The `V2` per-record loop: records are processed strictly in order, the
failure oracle is indexed by record position. -/
def runV2 (fail : Nat → FailV2) (now : Int) : Nat → List Rec → StV2 → StV2
  | _, [], s => s
  | i, r :: rest, s => runV2 fail now (i + 1) rest (stepV2 (fail i) now r s)

/-- The `V4` per-record loop. -/
def runV4 (fail : Nat → FailV4) (now : Int) : Nat → List Rec → StV4 → StV4
  | _, [], s => s
  | i, r :: rest, s => runV4 fail now (i + 1) rest (stepV4 (fail i) now r s)

/-- The parsed webhook body as the dataset-id variants read it: only the
HTTP method and `body.resource?.defaultDatasetId` are consulted. -/
structure Event where
  httpMethod : String
  resource_defaultDatasetId : Option String := none
  deriving DecidableEq, Repr

/-- The JSON value returned by the dataset fetch: either an array of
records or some non-array value. -/
inductive Fetched where
  | arr (recs : List Rec)
  | single (r : Rec)
  deriving DecidableEq, Repr

/-- Fresh `V2` counters over a given store. -/
def initV2 (db : DB) : StV2 := { db := db }

/-- Fresh `V4` counters over a given store. -/
def initV4 (db : DB) : StV4 := { db := db }

/-- The `V2` handler (webhook.js lines 150–317), returning the HTTP status
code and the final state.  Non-`POST` is 405; a missing dataset id or a
non-array dataset is 400 before any write; a failing fetch raises and is
answered 500; otherwise the loop runs and the answer is 200. -/
def handlerV2 (ev : Event) (fetchFails : Bool) (fetched : Fetched)
    (fail : Nat → FailV2) (now : Int) (db : DB) : Nat × StV2 :=
  if ev.httpMethod != "POST" then (405, initV2 db)
  else if !truthyStr ev.resource_defaultDatasetId then (400, initV2 db)
  else if fetchFails then (500, initV2 db)
  else
    match fetched with
    | .single _ => (400, initV2 db)
    | .arr recs => (200, runV2 fail now 0 recs (initV2 db))

/-- The retention predicate of the `V4` cleanup: a fact row is deleted when
its `scraped_at` is strictly below the cutoff (`null` never compares
below anything, so rows without the column survive). -/
def condIsOld (cutoff : Int) (c : CondRow) : Bool :=
  match c.scraped_at with
  | some t => decide (t < cutoff)
  | none => false

/-- The `V4` handler (part_000 lines 6–196).  `OPTIONS` answers 200
immediately, other non-`POST` methods 405.  A missing dataset id or a
failing fetch throws and is answered 500 with no writes.  Otherwise a
non-array dataset is wrapped as a single item, the loop runs, and fact
rows older than 24 hours (86400000 ms) are pruned — unless the prune call
itself fails, which is only logged.  The answer is then 200. -/
def handlerV4 (ev : Event) (fetchFails : Bool) (fetched : Fetched)
    (fail : Nat → FailV4) (pruneFails : Bool) (now : Int) (db : DB) :
    Nat × StV4 :=
  if ev.httpMethod == "OPTIONS" then (200, initV4 db)
  else if ev.httpMethod != "POST" then (405, initV4 db)
  else if !truthyStr ev.resource_defaultDatasetId then (500, initV4 db)
  else if fetchFails then (500, initV4 db)
  else
    let items := match fetched with | .arr l => l | .single x => [x]
    let s1 := runV4 fail now 0 items (initV4 db)
    let s2 :=
      if pruneFails then s1
      else { s1 with db := { s1.db with
        conds := s1.db.conds.filter (fun c => !condIsOld (now - 86400000) c) } }
    (200, s2)

/-! ## Derived predicates used by the verification -/

/-- No two adjacent underscores. -/
def NoRun (l : List Char) : Prop :=
  l.Chain' (fun a b => ¬(a = '_' ∧ b = '_'))

/-- The three structural facts every `slugCore` output satisfies. -/
def SlugShape (l : List Char) : Prop :=
  (∀ c ∈ l, isSlugChar c = true) ∧ NoRun l ∧
    l.head? ≠ some '_' ∧ l.getLast? ≠ some '_'

/-- Referential integrity of the store: every fact row references the id of
some dimension row. -/
def FactsResolved (db : DB) : Prop :=
  ∀ c ∈ db.conds, ∃ b ∈ db.beaches, c.beach_id = b.id

lemma slugChar_lower {c : Char} (h : isSlugChar c = true) : lowerChar c = c := by
  simp only [isSlugChar, Bool.or_eq_true, Bool.and_eq_true, decide_eq_true_eq] at h
  unfold lowerChar
  rw [if_neg]
  simp only [Bool.or_eq_true, Bool.and_eq_true, decide_eq_true_eq, not_or, not_and]
  omega

lemma slugChar_decompose {c : Char} (h : isSlugChar c = true) : decomposeChar c = [c] := by
  simp only [isSlugChar, Bool.or_eq_true, Bool.and_eq_true, decide_eq_true_eq] at h
  unfold decomposeChar
  rw [if_pos]
  · omega

lemma slugChar_not_combining {c : Char} (h : isSlugChar c = true) :
    isCombiningMark c = false := by
  simp only [isSlugChar, Bool.or_eq_true, Bool.and_eq_true, decide_eq_true_eq] at h
  simp only [isCombiningMark, Bool.and_eq_false_iff, decide_eq_false_iff_not]
  omega

lemma slugChar_not_ws {c : Char} (h : isSlugChar c = true) :
    isJsWhitespace c = false := by
  simp only [isSlugChar, Bool.or_eq_true, Bool.and_eq_true, decide_eq_true_eq] at h
  simp only [isJsWhitespace, Bool.or_eq_false_iff, Bool.and_eq_false_iff,
    decide_eq_false_iff_not]
  omega

lemma underscore_slugChar : isSlugChar '_' = true := by decide

lemma map_lower_id {l : List Char} (h : ∀ c ∈ l, isSlugChar c = true) :
    l.map lowerChar = l := by
  induction l with
  | nil => rfl
  | cons c cs ih =>
    simp only [List.map_cons]
    rw [slugChar_lower (h c (by simp)), ih (fun x hx => h x (by simp [hx]))]

lemma flatten_decompose_id {l : List Char} (h : ∀ c ∈ l, isSlugChar c = true) :
    (l.map decomposeChar).flatten = l := by
  induction l with
  | nil => rfl
  | cons c cs ih =>
    simp only [List.map_cons, List.flatten_cons]
    rw [slugChar_decompose (h c (by simp)), ih (fun x hx => h x (by simp [hx]))]
    rfl

lemma wsRunsAux_cons_nws {c : Char} (hc : isJsWhitespace c = false) (b : Bool)
    (cs : List Char) : wsRunsAux b (c :: cs) = c :: wsRunsAux false cs := by
  simp [wsRunsAux, hc]

lemma wsRuns_id {l : List Char} (h : ∀ c ∈ l, isJsWhitespace c = false) :
    ∀ b, wsRunsAux b l = l := by
  induction l with
  | nil => intro b; rfl
  | cons c cs ih =>
    intro b
    rw [wsRunsAux_cons_nws (h c (by simp)) b cs,
      ih (fun x hx => h x (by simp [hx])) false]

lemma collapseAux_cons_u_true (cs : List Char) :
    collapseAux true ('_' :: cs) = collapseAux true cs := by
  simp [collapseAux]

lemma collapseAux_cons_u_false (cs : List Char) :
    collapseAux false ('_' :: cs) = '_' :: collapseAux true cs := by
  simp [collapseAux]

lemma collapseAux_cons_ne (b : Bool) {c : Char} (hc : ¬c = '_') (cs : List Char) :
    collapseAux b (c :: cs) = c :: collapseAux false cs := by
  simp [collapseAux, hc]

lemma collapseAux_true_head (l : List Char) :
    (collapseAux true l).head? ≠ some '_' := by
  induction l with
  | nil => simp [collapseAux]
  | cons c cs ih =>
    by_cases hc : c = '_'
    · subst hc; rw [collapseAux_cons_u_true]; exact ih
    · rw [collapseAux_cons_ne true hc]
      simpa using fun hcontra => hc hcontra

lemma noRun_collapseAux (l : List Char) : ∀ b, NoRun (collapseAux b l) := by
  induction l with
  | nil => intro b; simp [collapseAux, NoRun]
  | cons c cs ih =>
    intro b
    by_cases hc : c = '_'
    · subst hc
      cases b with
      | true => rw [collapseAux_cons_u_true]; exact ih true
      | false =>
        rw [collapseAux_cons_u_false, NoRun, List.chain'_cons']
        refine ⟨?_, ih true⟩
        intro y hy hcontra
        exact collapseAux_true_head cs (by rw [hy, hcontra.2])
    · rw [collapseAux_cons_ne b hc, NoRun, List.chain'_cons']
      exact ⟨fun y _ hcontra => hc hcontra.1, ih false⟩

lemma collapseAux_id {l : List Char} (h : NoRun l) :
    ∀ b, (b = true → l.head? ≠ some '_') → collapseAux b l = l := by
  induction l with
  | nil => intro b _; rfl
  | cons c cs ih =>
    intro b hb
    rw [NoRun, List.chain'_cons'] at h
    obtain ⟨hhd, htl⟩ := h
    by_cases hc : c = '_'
    · subst hc
      cases b with
      | true => exact absurd rfl (hb rfl)
      | false =>
        rw [collapseAux_cons_u_false, ih htl true]
        intro _ hcs
        cases hcs' : cs.head? with
        | none => rw [hcs'] at hcs; exact Option.noConfusion hcs
        | some y =>
          rw [hcs'] at hcs
          exact hhd y hcs' ⟨rfl, by injection hcs⟩
    · rw [collapseAux_cons_ne b hc, ih htl false (by simp)]

lemma all_collapseAux {p : Char → Bool} (hp : p '_' = true) {l : List Char}
    (h : ∀ c ∈ l, p c = true) : ∀ b c, c ∈ collapseAux b l → p c = true := by
  induction l with
  | nil => intro b c hc; simp [collapseAux] at hc
  | cons x cs ih =>
    intro b c hc
    by_cases hx : x = '_'
    · subst hx
      cases b with
      | true =>
        rw [collapseAux_cons_u_true] at hc
        exact ih (fun y hy => h y (by simp [hy])) true c hc
      | false =>
        rw [collapseAux_cons_u_false] at hc
        rcases List.mem_cons.mp hc with h1 | h2
        · rw [h1]; exact hp
        · exact ih (fun y hy => h y (by simp [hy])) true c h2
    · rw [collapseAux_cons_ne b hx] at hc
      rcases List.mem_cons.mp hc with h1 | h2
      · rw [h1]; exact h x (by simp)
      · exact ih (fun y hy => h y (by simp [hy])) false c h2

lemma drop_lead_cons_u (rest : List Char) :
    dropLeadingUnderscore ('_' :: rest) = rest := by
  simp [dropLeadingUnderscore]

lemma drop_lead_cons_ne {c : Char} (hc : ¬c = '_') (rest : List Char) :
    dropLeadingUnderscore (c :: rest) = c :: rest := by
  simp [dropLeadingUnderscore, hc]

lemma drop_lead_id {l : List Char} (h : l.head? ≠ some '_') :
    dropLeadingUnderscore l = l := by
  cases l with
  | nil => rfl
  | cons c rest =>
    have hc : ¬c = '_' := fun hcc => h (by rw [hcc]; rfl)
    exact drop_lead_cons_ne hc rest

lemma drop_lead_mem {l : List Char} {c : Char}
    (h : c ∈ dropLeadingUnderscore l) : c ∈ l := by
  cases l with
  | nil => exact h
  | cons x rest =>
    by_cases hx : x = '_'
    · subst hx; rw [drop_lead_cons_u] at h; exact List.mem_cons_of_mem _ h
    · rwa [drop_lead_cons_ne hx] at h

lemma noRun_drop_lead {l : List Char} (h : NoRun l) :
    NoRun (dropLeadingUnderscore l) := by
  cases l with
  | nil => exact h
  | cons x rest =>
    by_cases hx : x = '_'
    · subst hx
      rw [drop_lead_cons_u]
      exact (List.chain'_cons'.mp h).2
    · rwa [drop_lead_cons_ne hx]

lemma head_drop_lead {l : List Char} (h : NoRun l) :
    (dropLeadingUnderscore l).head? ≠ some '_' := by
  cases l with
  | nil => simp [dropLeadingUnderscore]
  | cons x rest =>
    by_cases hx : x = '_'
    · subst hx
      rw [drop_lead_cons_u]
      intro hcontra
      cases rest with
      | nil => exact Option.noConfusion hcontra
      | cons y t =>
        have := (List.chain'_cons'.mp h).1 y (by simp)
        exact this ⟨rfl, by simpa using hcontra⟩
    · rw [drop_lead_cons_ne hx]
      simp only [List.head?_cons, ne_eq, Option.some.injEq]
      exact fun hcontra => hx hcontra

lemma getLast_drop_lead {l : List Char} (h : l.getLast? ≠ some '_') :
    (dropLeadingUnderscore l).getLast? ≠ some '_' := by
  cases l with
  | nil => simp [dropLeadingUnderscore]
  | cons x rest =>
    by_cases hx : x = '_'
    · subst hx
      rw [drop_lead_cons_u]
      cases rest with
      | nil => simp
      | cons y t => rwa [List.getLast?_cons_cons] at h
    · rwa [drop_lead_cons_ne hx]

lemma noRun_reverse {l : List Char} (h : NoRun l) : NoRun l.reverse := by
  rw [NoRun, List.chain'_reverse]
  exact h.imp (fun a b hab => by tauto)

lemma slugShape_slugCore (l : List Char) : SlugShape (slugCore l) := by
  set x := collapseAux false
    (List.filter isSlugChar
      (wsRunsAux false
        (List.filter (fun c => !isCombiningMark c)
          (List.flatten (List.map decomposeChar (List.map lowerChar l)))))) with hx
  have hallx : ∀ c ∈ x, isSlugChar c = true := by
    intro c hc
    exact all_collapseAux underscore_slugChar
      (fun y hy => (List.mem_filter.mp hy).2) false c hc
  have hnrx : NoRun x := noRun_collapseAux _ false
  have h1 : slugCore l = trimUnderscores x := rfl
  rw [h1]
  unfold trimUnderscores
  set a := dropLeadingUnderscore x with ha
  set b := a.reverse with hb2
  set d := dropLeadingUnderscore b with hd
  have hnra : NoRun a := noRun_drop_lead hnrx
  have hheada : a.head? ≠ some '_' := head_drop_lead hnrx
  have hnrb : NoRun b := noRun_reverse hnra
  have hlastb : b.getLast? ≠ some '_' := by
    rw [hb2, List.getLast?_reverse]; exact hheada
  have hnrd : NoRun d := noRun_drop_lead hnrb
  have hheadd : d.head? ≠ some '_' := head_drop_lead hnrb
  have hlastd : d.getLast? ≠ some '_' := getLast_drop_lead hlastb
  refine ⟨?_, ?_, ?_, ?_⟩
  · intro c hc
    rw [List.mem_reverse] at hc
    have hc2 : c ∈ b := drop_lead_mem hc
    rw [hb2, List.mem_reverse] at hc2
    exact hallx c (drop_lead_mem hc2)
  · exact noRun_reverse hnrd
  · rw [List.head?_reverse]; exact hlastd
  · rw [List.getLast?_reverse]; exact hheadd

lemma slugCore_fixed {t : List Char} (h : SlugShape t) : slugCore t = t := by
  obtain ⟨hall, hnr, hhead, hlast⟩ := h
  unfold slugCore
  have h3 : List.filter (fun c => !isCombiningMark c) t = t :=
    List.filter_eq_self.mpr (fun c hc => by simp [slugChar_not_combining (hall c hc)])
  have h5 : List.filter isSlugChar t = t := List.filter_eq_self.mpr hall
  rw [map_lower_id hall, flatten_decompose_id hall, h3,
    wsRuns_id (fun c hc => slugChar_not_ws (hall c hc)) false, h5,
    collapseAux_id hnr false (by simp)]
  unfold trimUnderscores
  rw [drop_lead_id hhead, drop_lead_id (by rw [List.head?_reverse]; exact hlast),
    List.reverse_reverse]

lemma slugCore_idem (l : List Char) : slugCore (slugCore l) = slugCore l :=
  slugCore_fixed (slugShape_slugCore l)

lemma slugify_idem (s : String) : slugify (slugify s) = slugify s := by
  unfold slugify
  exact congrArg String.mk (slugCore_idem s.data)

lemma stepV4_bucket (f : FailV4) (now : Int) (r : Rec) (s : StV4) :
    (stepV4 f now r s).processed + (stepV4 f now r s).errors =
      s.processed + s.errors + 1 := by
  unfold stepV4
  repeat' split
  all_goals simp
  all_goals omega

lemma runV4_bucket (fail : Nat → FailV4) (now : Int) :
    ∀ (recs : List Rec) (i : Nat) (s : StV4),
      (runV4 fail now i recs s).processed + (runV4 fail now i recs s).errors =
        s.processed + s.errors + recs.length := by
  intro recs
  induction recs with
  | nil => intro i s; simp [runV4]
  | cons r rest ih =>
    intro i s
    simp only [runV4, List.length_cons]
    rw [ih (i + 1) (stepV4 (fail i) now r s), stepV4_bucket]
    omega

lemma orDefault_unknown_not_empty (o : Option String) :
    (orDefault o "Unknown").isEmpty = false := by
  unfold orDefault
  cases o with
  | none => rfl
  | some s =>
    by_cases hs : s.isEmpty
    · simp only [hs, if_true]
      decide
    · simp [hs]

lemma matchOne_mem {l : List BeachRow} {p : BeachRow → Bool} {b : BeachRow}
    (h : matchOne l p = some b) : b ∈ l := by
  unfold matchOne at h
  split at h
  · rename_i b' heq
    injection h with h'
    rw [← h']
    have hb : b' ∈ l.filter p := by rw [heq]; exact List.mem_singleton.mpr rfl
    exact (List.mem_filter.mp hb).1
  · exact Option.noConfusion h

lemma ids_updateRows {db : DB} {bid : Nat} {g : BeachRow → BeachRow}
    (hg : ∀ x, (g x).id = x.id) {i : Nat}
    (h : ∃ b ∈ db.beaches, i = b.id) :
    ∃ b ∈ (updateRows db bid g).beaches, i = b.id := by
  obtain ⟨b, hb, hi⟩ := h
  refine ⟨if b.id == bid then g b else b, ?_, ?_⟩
  · exact List.mem_map_of_mem _ hb
  · split
    · rw [hi, hg b]
    · exact hi

lemma factsResolved_insertCond {db : DB} {c : CondRow}
    (h : FactsResolved db) (hc : ∃ b ∈ db.beaches, c.beach_id = b.id) :
    FactsResolved (insertCond db c) := by
  intro x hx
  rcases List.mem_append.mp hx with h1 | h2
  · exact h x h1
  · rw [List.mem_singleton.mp h2]
    exact hc

lemma beaches_sub_insert {db : DB} {mk : Nat → BeachRow} {i : Nat}
    (h : ∃ b ∈ db.beaches, i = b.id) :
    ∃ b ∈ (insertBeach db mk).1.beaches, i = b.id := by
  obtain ⟨b, hb, hi⟩ := h
  exact ⟨b, List.mem_append_left _ hb, hi⟩

lemma new_beach_resolved (db : DB) (mk : Nat → BeachRow)
    (hmk : ∀ i, (mk i).id = i) :
    ∃ b ∈ (insertBeach db mk).1.beaches, (insertBeach db mk).2 = b.id := by
  refine ⟨mk db.nextId, List.mem_append_right _ (List.mem_singleton.mpr rfl), ?_⟩
  rw [hmk]
  rfl

lemma updBeachV4_id (r : Rec) (now : Int) : ∀ x, (updBeachV4 r now x).id = x.id :=
  fun _ => rfl

lemma updMuniV2_id (muni : String) (now : Int) :
    ∀ x, (updMuniV2 muni now x).id = x.id :=
  fun _ => rfl

lemma factsResolved_stepV4 (f : FailV4) (now : Int) (r : Rec) (s : StV4)
    (h : FactsResolved s.db) : FactsResolved (stepV4 f now r s).db := by
  unfold stepV4
  split
  · exact h
  · split
    · exact h
    · split
      · split
        · exact h
        · split
          · intro c hc
            exact beaches_sub_insert (h c hc)
          · apply factsResolved_insertCond
            · intro c hc
              exact beaches_sub_insert (h c hc)
            · exact new_beach_resolved s.db (mkBeachV4 r) (fun i => rfl)
      · rename_i b hmatch
        split
        · exact h
        · split
          · intro c hc
            exact ids_updateRows (updBeachV4_id r now) (h c hc)
          · apply factsResolved_insertCond
            · intro c hc
              exact ids_updateRows (updBeachV4_id r now) (h c hc)
            · exact ids_updateRows (updBeachV4_id r now) ⟨b, matchOne_mem hmatch, rfl⟩

lemma factsResolved_stepV1 (f : FailV1) (now : Int) (r : Rec) (s : StV1)
    (h : FactsResolved s.db) : FactsResolved (stepV1 f now r s).db := by
  unfold stepV1
  split
  · exact h
  · split
    · rename_i b hmatch
      split
      · exact h
      · exact factsResolved_insertCond h ⟨b, matchOne_mem hmatch, rfl⟩
    · split
      · exact h
      · split
        · intro c hc
          exact beaches_sub_insert (h c hc)
        · apply factsResolved_insertCond
          · intro c hc
            exact beaches_sub_insert (h c hc)
          · exact new_beach_resolved s.db _ (fun i => rfl)

lemma factsResolved_dimAfterFoundV2 {muni : String} {now : Int} {bid : Nat}
    {db : DB} {i : Nat} (h : ∃ b ∈ db.beaches, i = b.id) :
    ∃ b ∈ (dimAfterFoundV2 muni now bid db).beaches, i = b.id := by
  unfold dimAfterFoundV2
  split
  · exact ids_updateRows (updMuniV2_id muni now) h
  · exact h

lemma factsResolved_dimAfter (muni : String) (now : Int) (bid : Nat) (db : DB)
    (h : FactsResolved db) : FactsResolved (dimAfterFoundV2 muni now bid db) := by
  unfold dimAfterFoundV2
  split
  · intro c hc
    exact ids_updateRows (updMuniV2_id muni now) (h c hc)
  · exact h

lemma factsResolved_stepV2 (f : FailV2) (now : Int) (r : Rec) (s : StV2)
    (h : FactsResolved s.db) : FactsResolved (stepV2 f now r s).db := by
  unfold stepV2
  split
  · exact h
  · split
    · rename_i b hmatch
      split
      · exact factsResolved_dimAfter _ now b.id s.db h
      · apply factsResolved_insertCond
        · exact factsResolved_dimAfter _ now b.id s.db h
        · exact factsResolved_dimAfterFoundV2 ⟨b, matchOne_mem hmatch, rfl⟩
    · split
      · exact h
      · split
        · intro c hc
          exact beaches_sub_insert (h c hc)
        · apply factsResolved_insertCond
          · intro c hc
            exact beaches_sub_insert (h c hc)
          · exact new_beach_resolved s.db _ (fun i => rfl)
/-! ## The claims -/

/-- C1: for every valid record whose identity key does not match any
existing dimension row, the handler creates exactly one new beach row and
exactly one new `beach_conditions` row, and increments the
`created`/`beaches_added` counter by exactly 1 (shown for the `V2` and
`V4` reconcilers, with every write of that record succeeding). -/
theorem new_identity_creates_one_beach_and_one_condition :
    (∀ (r : Rec) (s : StV2) (now : Int) (nm : String),
      r.name = some nm → ¬nm.isEmpty →
      matchOne s.db.beaches (keyV2 nm (orDefault r.municipality "Unknown")) = none →
      ((stepV2 {} now r s).db.beaches.length = s.db.beaches.length + 1 ∧
       (stepV2 {} now r s).db.conds.length = s.db.conds.length + 1 ∧
       (stepV2 {} now r s).created = s.created + 1)) ∧
    (∀ (r : Rec) (s : StV4) (now : Int),
      truthyStr r.name = true → truthyStr r.source_url = true →
      matchOne s.db.beaches (fun b => b.source_url == r.source_url) = none →
      ((stepV4 {} now r s).db.beaches.length = s.db.beaches.length + 1 ∧
       (stepV4 {} now r s).db.conds.length = s.db.conds.length + 1 ∧
       (stepV4 {} now r s).beaches_added = s.beaches_added + 1)) := by
  constructor
  · intro r s now nm hnm hne hmatch
    simp only [stepV2, hnm, truthyStr, Option.getD_some, hmatch, insertBeach, insertCond]
    simp [hne, insertBeach, insertCond]
  · intro r s now hn hu hmatch
    simp [stepV4, hn, hu, hmatch, insertBeach, insertCond]

/-- Witness for C1: a fresh record against an empty store yields one beach
row, one fact row, and `created = 1`. -/
theorem new_identity_creation_witness :
    (stepV2 {} 0 { name := some "Cala Major" } (initV2 {})).db.beaches.length = 1 ∧
    (stepV2 {} 0 { name := some "Cala Major" } (initV2 {})).db.conds.length = 1 ∧
    (stepV2 {} 0 { name := some "Cala Major" } (initV2 {})).created = 1 :=
  new_identity_creates_one_beach_and_one_condition.1
    { name := some "Cala Major" } (initV2 {}) 0 "Cala Major" rfl (by decide) (by decide)

/-- C2: for every valid record whose identity key matches the (unique)
existing dimension row, no new dimension row is created and a fact row is
always appended; delivering the same single-record input twice against an
empty store leaves one beach row and two fact rows. -/
theorem existing_identity_appends_fact_only :
    (∀ (r : Rec) (s : StV2) (now : Int) (nm : String) (b : BeachRow),
      r.name = some nm → ¬nm.isEmpty →
      matchOne s.db.beaches (keyV2 nm (orDefault r.municipality "Unknown")) = some b →
      ((stepV2 {} now r s).db.beaches.length = s.db.beaches.length ∧
       (stepV2 {} now r s).db.conds = s.db.conds ++ [buildCondV2 r b.id now] ∧
       (stepV2 {} now r s).created = s.created)) ∧
    (∀ (r : Rec) (nm : String) (ev : Event) (now now2 : Int),
      r.name = some nm → ¬nm.isEmpty →
      ev.httpMethod = "POST" → truthyStr ev.resource_defaultDatasetId = true →
      ((handlerV2 ev false (.arr [r]) (fun _ => {}) now2
          (handlerV2 ev false (.arr [r]) (fun _ => {}) now {}).2.db).2.db.beaches.length = 1 ∧
       (handlerV2 ev false (.arr [r]) (fun _ => {}) now2
          (handlerV2 ev false (.arr [r]) (fun _ => {}) now {}).2.db).2.db.conds.length = 2)) := by
  constructor
  · intro r s now nm b hnm hne hmatch
    refine ⟨?_, ?_, ?_⟩ <;>
        simp [stepV2, hnm, truthyStr, hne, hmatch, insertCond, dimAfterFoundV2,
          updateRows] <;>
        split <;> simp
  · intro r nm ev now now2 hnm hne hpost hid
    have hrun : ∀ (t : Int) (db : DB), handlerV2 ev false (.arr [r]) (fun _ => {}) t db =
        (200, runV2 (fun _ => {}) t 0 [r] (initV2 db)) := by
      intro t db
      simp [handlerV2, hpost, hid]
    rw [hrun, hrun]
    simp [runV2, stepV2, hnm, truthyStr, hne, matchOne, keyV2, insertBeach, insertCond,
      updateRows, initV2, mkBeachV2, dimAfterFoundV2]
    split <;> simp

/-- Witness for C2: the spec's end-to-end scenario, one Playa de Muro record
delivered twice. -/
theorem existing_identity_append_witness :
    (handlerV2 { httpMethod := "POST", resource_defaultDatasetId := some "ds" } false
        (.arr [{ name := some "Playa de Muro", municipality := some "Muro" }])
        (fun _ => {}) 1
        (handlerV2 { httpMethod := "POST", resource_defaultDatasetId := some "ds" } false
          (.arr [{ name := some "Playa de Muro", municipality := some "Muro" }])
          (fun _ => {}) 0 {}).2.db).2.db.beaches.length = 1 ∧
    (handlerV2 { httpMethod := "POST", resource_defaultDatasetId := some "ds" } false
        (.arr [{ name := some "Playa de Muro", municipality := some "Muro" }])
        (fun _ => {}) 1
        (handlerV2 { httpMethod := "POST", resource_defaultDatasetId := some "ds" } false
          (.arr [{ name := some "Playa de Muro", municipality := some "Muro" }])
          (fun _ => {}) 0 {}).2.db).2.db.conds.length = 2 :=
  existing_identity_appends_fact_only.2
    { name := some "Playa de Muro", municipality := some "Muro" } "Playa de Muro"
    { httpMethod := "POST", resource_defaultDatasetId := some "ds" } 0 1
    rfl (by decide) rfl (by decide)

/-- Counterexample to C3 as stated: one nameless record through the `V2`
handler is counted in no bucket at all, so
`created + updated + errors = 0` while the input count is 1 — the
counters do not sum to the total. -/
theorem counters_sum_counterexample :
    (handlerV2 { httpMethod := "POST", resource_defaultDatasetId := some "d" } false
        (.arr [{}]) (fun _ => {}) 0 {}).1 = 200 ∧
    ¬((handlerV2 { httpMethod := "POST", resource_defaultDatasetId := some "d" } false
        (.arr [{}]) (fun _ => {}) 0 {}).2.created +
      (handlerV2 { httpMethod := "POST", resource_defaultDatasetId := some "d" } false
        (.arr [{}]) (fun _ => {}) 0 {}).2.updated +
      (handlerV2 { httpMethod := "POST", resource_defaultDatasetId := some "d" } false
        (.arr [{}]) (fun _ => {}) 0 {}).2.errors = [({} : Rec)].length) := by decide

/-- C3 (amended): a record whose processing or write fails never stops the
loop (it always advances to the rest of the batch), the response is 200
whenever the loop is reached, and in the `V4` reconciler every record
lands in exactly one of `processed`/`errors`, so those two counters sum to
the input count for every failure pattern; the `V2` counters do not
partition the input (see the counterexample). -/
theorem per_record_isolation_and_accounting :
    (∀ (fail : Nat → FailV2) (now : Int) (i : Nat) (r : Rec) (rest : List Rec) (s : StV2),
      runV2 fail now i (r :: rest) s =
        runV2 fail now (i + 1) rest (stepV2 (fail i) now r s)) ∧
    (∀ (ev : Event) (recs : List Rec) (fail : Nat → FailV2) (now : Int) (db : DB),
      ev.httpMethod = "POST" → truthyStr ev.resource_defaultDatasetId = true →
      (handlerV2 ev false (.arr recs) fail now db).1 = 200) ∧
    (∀ (ev : Event) (fetched : Fetched) (fail : Nat → FailV4) (pf : Bool) (now : Int) (db : DB),
      ev.httpMethod = "POST" → truthyStr ev.resource_defaultDatasetId = true →
      (handlerV4 ev false fetched fail pf now db).1 = 200) ∧
    (∀ (fail : Nat → FailV4) (now : Int) (recs : List Rec) (i : Nat) (s : StV4),
      (runV4 fail now i recs s).processed + (runV4 fail now i recs s).errors =
        s.processed + s.errors + recs.length) := by
  refine ⟨fun _ _ _ _ _ _ => rfl, ?_, ?_,
    fun fail now recs i s => runV4_bucket fail now recs i s⟩
  · intro ev recs fail now db hpost hid
    simp [handlerV2, hpost, hid]
  · intro ev fetched fail pf now db hpost hid
    simp [handlerV4, hpost, hid]

/-- Witness for C3 (amended): a delivery that reaches the loop is answered
200, and a two-record batch whose first write fails still has both records
accounted for in `processed + errors`. -/
theorem per_record_isolation_witness :
    (handlerV2 { httpMethod := "POST", resource_defaultDatasetId := some "ds" } false
        (.arr []) (fun _ => {}) 0 {}).1 = 200 ∧
    (runV4 (fun i => if i = 0 then { cond := true } else {}) 0 0
        [{ name := some "A", source_url := some "a" },
         { name := some "B", source_url := some "b" }] (initV4 {})).processed +
      (runV4 (fun i => if i = 0 then { cond := true } else {}) 0 0
        [{ name := some "A", source_url := some "a" },
         { name := some "B", source_url := some "b" }] (initV4 {})).errors = 2 :=
  ⟨per_record_isolation_and_accounting.2.1
      { httpMethod := "POST", resource_defaultDatasetId := some "ds" }
      [] (fun _ => {}) 0 {} rfl (by decide),
   per_record_isolation_and_accounting.2.2.2
      (fun i => if i = 0 then { cond := true } else {}) 0
      [{ name := some "A", source_url := some "a" },
       { name := some "B", source_url := some "b" }] 0 (initV4 {})⟩

/-- Counterexample to C4 as stated: in the `V4` reconciler a matched beach
whose incoming record carries no municipality has its stored municipality
`"Muro"` overwritten with `null` — the handler does overwrite a stored
value with an empty incoming one. -/
theorem stored_municipality_overwritten_counterexample :
    ({ name := some "X", source_url := some "u" } : Rec).municipality = none ∧
    (stepV4 {} 0 { name := some "X", source_url := some "u" }
        (initV4 { beaches := [{ id := 0, name := "Old", municipality := some "Muro",
                                source_url := some "u" }], conds := [], nextId := 1 })
      ).db.beaches.map (fun b => b.municipality) = [none] := by decide

/-- C4 (amended): in the `V2` reconciler a match rewrites only the matched
row's `municipality` and `updated_at`, and only when the incoming record
supplies a non-empty municipality other than `"Unknown"` (an empty or
missing municipality leaves the dimension table untouched); in the `V4`
reconciler the matched row's `name` and `municipality` are overwritten
unconditionally with the incoming values — including `null` — and
`updated_at` is bumped, all other fields and rows staying unchanged. -/
theorem dimension_update_field_frame :
    (∀ (r : Rec) (s : StV2) (now : Int) (nm : String) (b : BeachRow),
      r.name = some nm → ¬nm.isEmpty →
      matchOne s.db.beaches (keyV2 nm (orDefault r.municipality "Unknown")) = some b →
      ((truthyStr r.municipality = false →
          (stepV2 {} now r s).db.beaches = s.db.beaches) ∧
       (orDefault r.municipality "Unknown" = "Unknown" →
          (stepV2 {} now r s).db.beaches = s.db.beaches) ∧
       (orDefault r.municipality "Unknown" ≠ "Unknown" →
          (stepV2 {} now r s).db.beaches = s.db.beaches.map (fun x =>
            if x.id == b.id then
              updMuniV2 (orDefault r.municipality "Unknown") now x
            else x)))) ∧
    (∀ (r : Rec) (s : StV4) (now : Int) (b : BeachRow),
      truthyStr r.name = true → truthyStr r.source_url = true →
      matchOne s.db.beaches (fun x => x.source_url == r.source_url) = some b →
      (stepV4 {} now r s).db.beaches = s.db.beaches.map (fun x =>
        if x.id == b.id then updBeachV4 r now x else x)) := by
  constructor
  · intro r s now nm b hnm hne hmatch
    refine ⟨?_, ?_, ?_⟩
    · intro hmu
      have hud : orDefault r.municipality "Unknown" = "Unknown" := by
        unfold orDefault
        cases hm : r.municipality with
        | none => rfl
        | some m =>
          rw [hm] at hmu
          simp [truthyStr] at hmu
          simp [hmu]
      rw [hud] at hmatch
      simp [stepV2, hnm, truthyStr, hne, hud, hmatch, insertCond, dimAfterFoundV2]
    · intro hu
      rw [hu] at hmatch
      simp [stepV2, hnm, truthyStr, hne, hu, hmatch, insertCond, dimAfterFoundV2]
    · intro hu
      simp [stepV2, hnm, truthyStr, hne, hmatch, insertCond, updateRows,
        dimAfterFoundV2, updMuniV2, orDefault_unknown_not_empty, hu]
  · intro r s now b hn hu hmatch
    simp [stepV4, hn, hu, hmatch, insertCond, updateRows, updBeachV4]

/-- Witness for C4 (amended): a matched record with no municipality leaves
the `V2` dimension table exactly as it was. -/
theorem dimension_update_frame_witness :
    (stepV2 {} 0 { name := some "Playa de Muro" }
        (initV2 { beaches := [{ id := 0, name := "Playa de Muro",
                                municipality := some "Unknown" }],
                  conds := [], nextId := 1 })).db.beaches =
      [{ id := 0, name := "Playa de Muro", municipality := some "Unknown" }] :=
  (dimension_update_field_frame.1 { name := some "Playa de Muro" }
      (initV2 { beaches := [{ id := 0, name := "Playa de Muro",
                              municipality := some "Unknown" }],
                conds := [], nextId := 1 }) 0 "Playa de Muro"
      { id := 0, name := "Playa de Muro", municipality := some "Unknown" }
      rfl (by decide) (by decide)).1 rfl
/-- C5: slug derivation (the `V2` transformation, the revision that
implements accent handling) is a deterministic pure function, idempotent —
applying it twice to any string equals applying it once — and strips
accented characters to their base letter instead of rejecting them:
`"Playa d'Alcúdia"` maps to `playa_dalcudia`. -/
theorem slug_deterministic_idempotent_accent_stripping :
    (∀ s : String, slugify (slugify s) = slugify s) ∧
      slugify "Playa d\x27Alc\xfadia" = "playa_dalcudia" :=
  ⟨slugify_idem, by decide⟩

/-- Counterexample to C6 as stated: the `part_000` handler answers a `POST`
body with no dataset identifier with 500 (the missing id is thrown and
caught by the top-level handler), not 400. -/
theorem missing_dataset_id_500_counterexample :
    (handlerV4 { httpMethod := "POST" } false (.arr []) (fun _ => {}) false 0 {}).1 = 500 ∧
    (handlerV4 { httpMethod := "POST" } false (.arr []) (fun _ => {}) false 0 {}).1 ≠ 400 := by
  decide

/-- C6 (amended): in the `V2` handler a body yielding no dataset identifier
and a fetched value that is not a list are both answered 400 with no
database writes, and 500 arises only from the exception path; the
`part_000` handler instead answers 500 for a missing identifier (still
with no writes) and never rejects a non-list, which it wraps as a single
record. -/
theorem payload_failure_status_codes :
    (∀ (ev : Event) (ff : Bool) (f : Fetched) (fail : Nat → FailV2) (now : Int) (db : DB),
      ev.httpMethod = "POST" → truthyStr ev.resource_defaultDatasetId = false →
      (handlerV2 ev ff f fail now db).1 = 400 ∧ (handlerV2 ev ff f fail now db).2.db = db) ∧
    (∀ (ev : Event) (x : Rec) (fail : Nat → FailV2) (now : Int) (db : DB),
      ev.httpMethod = "POST" → truthyStr ev.resource_defaultDatasetId = true →
      (handlerV2 ev false (.single x) fail now db).1 = 400 ∧
        (handlerV2 ev false (.single x) fail now db).2.db = db) ∧
    (∀ (ev : Event) (ff : Bool) (f : Fetched) (fail : Nat → FailV4) (pf : Bool) (now : Int) (db : DB),
      ev.httpMethod = "POST" → truthyStr ev.resource_defaultDatasetId = false →
      (handlerV4 ev ff f fail pf now db).1 = 500 ∧
        (handlerV4 ev ff f fail pf now db).2.db = db) ∧
    (∀ (ev : Event) (ff : Bool) (f : Fetched) (fail : Nat → FailV2) (now : Int) (db : DB),
      (handlerV2 ev ff f fail now db).1 = 500 → ff = true) := by
  refine ⟨?_, ?_, ?_, ?_⟩
  · intro ev ff f fail now db hpost hid
    simp [handlerV2, hpost, hid, initV2]
  · intro ev x fail now db hpost hid
    simp [handlerV2, hpost, hid, initV2]
  · intro ev ff f fail pf now db hpost hid
    simp [handlerV4, hpost, hid, initV4]
  · intro ev ff f fail now db h
    cases hff : ff with
    | true => rfl
    | false =>
      exfalso
      subst hff
      simp only [handlerV2] at h
      repeat' split at h
      all_goals simp_all

/-- Witness for C6 (amended): an empty `POST` body through the `V2` handler
is answered 400 and the store is untouched. -/
theorem payload_failure_status_witness :
    (handlerV2 { httpMethod := "POST" } false (.arr []) (fun _ => {}) 0 {}).1 = 400 ∧
    (handlerV2 { httpMethod := "POST" } false (.arr []) (fun _ => {}) 0 {}).2.db = {} :=
  payload_failure_status_codes.1 { httpMethod := "POST" } false (.arr [])
    (fun _ => {}) 0 {} rfl rfl

/-- Counterexample to C7 as stated: a record with a `source_url` but no
name is counted by `part_000` directly in the `errors` counter — not in a
separate skip counter — and no display name is derived from the URL's
last path segment (nothing is written and nothing else is counted). -/
theorem nameless_record_counted_as_error_counterexample :
    (stepV4 {} 0 { source_url := some "u" } (initV4 {})).errors = 1 ∧
    (stepV4 {} 0 { source_url := some "u" } (initV4 {})).db = ({} : DB) ∧
    (stepV4 {} 0 { source_url := some "u" } (initV4 {})).processed = 0 ∧
    (stepV4 {} 0 { source_url := some "u" } (initV4 {})).beaches_added = 0 := by decide

/-- C7 (amended): a record without a usable name is never written to either
table and never reaches the created/updated counters, but no variant
derives a display name from the URL: `part_000` counts the record in
`errors` (even when a `source_url` is present), and the `V2` reconciler
skips it without touching any counter. -/
theorem invalid_record_handling :
    (∀ (f : FailV4) (now : Int) (r : Rec) (s : StV4),
      (truthyStr r.name && truthyStr r.source_url) = false →
      stepV4 f now r s = { s with errors := s.errors + 1 }) ∧
    (∀ (f : FailV2) (now : Int) (r : Rec) (s : StV2),
      truthyStr r.name = false → stepV2 f now r s = s) := by
  constructor
  · intro f now r s h
    simp [stepV4, h]
  · intro f now r s h
    simp [stepV2, h]

/-- Witness for C7 (amended): the empty record leaves the `V2` state
entirely unchanged. -/
theorem invalid_record_handling_witness :
    stepV2 {} 0 ({} : Rec) (initV2 {}) = initV2 {} :=
  invalid_record_handling.2 {} 0 {} (initV2 {}) rfl

/-- Counterexample to C8 as stated: a record with no jellyfish field gets
`has_jellyfish` stored as `false` (a third default, from the `Boolean`
coercion in the webhook.js revisions), and in `part_000` a missing flag
status is stored as `null`, not defaulted to `"green"`. -/
theorem missing_measurement_defaulted_counterexample :
    ({} : Rec).has_jellyfish = none ∧
    (buildCondV3 {} 0 7).has_jellyfish = some false ∧
    ({} : Rec).flag_status = none ∧
    (buildCondV4 {} 0 7).flag_status = none := by decide

/-- C8 (amended): `part_000` stores every measurement field exactly as
supplied (missing stays absent, flag status included); the webhook.js
revisions default the flag to `"green"` and coerce jellyfish presence to
a boolean, so a missing value is stored as `false`; occupancy defaults to
zero only in `V1`, the revision that parses it as an integer, and stays
absent when missing in `V3`. -/
theorem fact_row_field_defaults :
    (∀ (r : Rec) (bid : Nat) (now : Int),
      (buildCondV4 r bid now).flag_status = r.flag_status ∧
      (buildCondV4 r bid now).has_jellyfish = r.has_jellyfish ∧
      (buildCondV4 r bid now).occupancy_percent_raw = r.occupancy_percent_raw ∧
      (buildCondV4 r bid now).occupancy_display_value = r.occupancy_display_value ∧
      (buildCondV4 r bid now).air_temperature = r.air_temperature ∧
      (buildCondV4 r bid now).water_temperature = r.water_temperature ∧
      (buildCondV4 r bid now).wind_speed = r.wind_speed ∧
      (buildCondV4 r bid now).wave_height = r.wave_height) ∧
    (∀ (r : Rec) (bid : Nat) (now : Int),
      (r.flag_status = none → (buildCondV3 r bid now).flag_status = some "green") ∧
      (buildCondV3 r bid now).has_jellyfish = some (boolify r.has_jellyfish) ∧
      (r.occupancy_percent = none → (buildCondV3 r bid now).occupancy_percent = none) ∧
      (r.water_temperature = none → (buildCondV3 r bid now).water_temperature = none) ∧
      (r.air_temperature = none → (buildCondV3 r bid now).air_temperature = none) ∧
      (r.wind_speed = none → (buildCondV3 r bid now).wind_speed = none) ∧
      (r.wave_height = none → (buildCondV3 r bid now).wave_height = none)) ∧
    (∀ (r : Rec) (bid : Nat) (now : Int),
      (r.occupancy_percent = none → (buildCondV1 r bid now).occupancy_percent = some 0) ∧
      (r.flag_status = none → (buildCondV1 r bid now).flag_status = some "green") ∧
      (r.has_jellyfish = none → (buildCondV1 r bid now).has_jellyfish = some false)) := by
  refine ⟨?_, ?_, ?_⟩
  · intro r bid now
    simp [buildCondV4]
  · intro r bid now
    refine ⟨?_, by simp [buildCondV3], ?_, ?_, ?_, ?_, ?_⟩ <;>
      intro h <;> simp [buildCondV3, orDefault, orNullInt, h]
  · intro r bid now
    refine ⟨?_, ?_, ?_⟩ <;> intro h <;>
      simp [buildCondV1, orDefault, boolify, h]

/-- Witness for C8 (amended): the empty record gets a green flag and a null
water temperature in a `V3` fact row, and occupancy zero in a `V1` one. -/
theorem fact_row_field_defaults_witness :
    (buildCondV3 ({} : Rec) 0 5).flag_status = some "green" ∧
    (buildCondV3 ({} : Rec) 0 5).water_temperature = none ∧
    (buildCondV1 ({} : Rec) 0 5).occupancy_percent = some 0 :=
  ⟨(fact_row_field_defaults.2.1 {} 0 5).1 rfl,
   (fact_row_field_defaults.2.1 {} 0 5).2.2.2.1 rfl,
   (fact_row_field_defaults.2.2 {} 0 5).1 rfl⟩

/-- C9: once the `part_000` handler reaches its loop, it answers 200 and —
whatever per-record failures occurred — then deletes exactly the fact
rows whose timestamp is strictly older than 24 hours before invocation,
leaving every other row untouched; a failing prune changes nothing and
the response is still 200. -/
theorem retention_prune_24_hours :
    ∀ (ev : Event) (recs : List Rec) (fail : Nat → FailV4) (pf : Bool)
      (now : Int) (db : DB),
      ev.httpMethod = "POST" → truthyStr ev.resource_defaultDatasetId = true →
      ((handlerV4 ev false (.arr recs) fail pf now db).1 = 200 ∧
       (pf = false →
         ∀ c, c ∈ (handlerV4 ev false (.arr recs) fail pf now db).2.db.conds ↔
           (c ∈ (runV4 fail now 0 recs (initV4 db)).db.conds ∧
             condIsOld (now - 86400000) c = false)) ∧
       (pf = true →
         (handlerV4 ev false (.arr recs) fail pf now db).2.db.conds =
           (runV4 fail now 0 recs (initV4 db)).db.conds)) := by
  intro ev recs fail pf now db hpost hid
  refine ⟨?_, ?_, ?_⟩
  · simp [handlerV4, hpost, hid]
  · intro hpf c
    subst hpf
    simp [handlerV4, hpost, hid, List.mem_filter]
  · intro hpf
    subst hpf
    simp [handlerV4, hpost, hid]

/-- Witness for C9: an empty batch through the `part_000` handler is
answered 200. -/
theorem retention_prune_witness :
    (handlerV4 { httpMethod := "POST", resource_defaultDatasetId := some "ds" } false
        (.arr []) (fun _ => {}) false 0 {}).1 = 200 :=
  (retention_prune_24_hours
    { httpMethod := "POST", resource_defaultDatasetId := some "ds" }
    [] (fun _ => {}) false 0 {} rfl (by decide)).1

/-- C10: in every reconciling variant, a fact row is only ever inserted
with a beach id resolved in the same iteration — each step preserves the
invariant that every fact row references some dimension row's id — and
when the dimension row is neither found nor created (lookup misses and
the insert fails) the fact table is left untouched for that record. -/
theorem fact_insert_requires_resolved_beach :
    ((∀ (f : FailV1) (now : Int) (r : Rec) (s : StV1),
      FactsResolved s.db → FactsResolved (stepV1 f now r s).db) ∧
     (∀ (f : FailV2) (now : Int) (r : Rec) (s : StV2),
      FactsResolved s.db → FactsResolved (stepV2 f now r s).db) ∧
     (∀ (f : FailV4) (now : Int) (r : Rec) (s : StV4),
      FactsResolved s.db → FactsResolved (stepV4 f now r s).db)) ∧
    ((∀ (f : FailV1) (now : Int) (r : Rec) (s : StV1) (nm : String),
      r.name = some nm →
      matchOne s.db.beaches (fun b => b.place_id == some (placeIdV1 nm)) = none →
      f.dim = true → (stepV1 f now r s).db.conds = s.db.conds) ∧
     (∀ (f : FailV2) (now : Int) (r : Rec) (s : StV2),
      matchOne s.db.beaches
        (keyV2 (r.name.getD "") (orDefault r.municipality "Unknown")) = none →
      f.dim = true → (stepV2 f now r s).db.conds = s.db.conds) ∧
     (∀ (f : FailV4) (now : Int) (r : Rec) (s : StV4),
      matchOne s.db.beaches (fun b => b.source_url == r.source_url) = none →
      f.dim = true → (stepV4 f now r s).db.conds = s.db.conds)) := by
  refine ⟨⟨factsResolved_stepV1, factsResolved_stepV2, factsResolved_stepV4⟩, ?_, ?_, ?_⟩
  · intro f now r s nm hnm hmatch hdim
    simp [stepV1, hnm, hmatch, hdim]
  · intro f now r s hmatch hdim
    unfold stepV2
    split
    · rfl
    · rw [hmatch]
      try simp [hdim]
  · intro f now r s hmatch hdim
    unfold stepV4
    split
    · rfl
    · split
      · rfl
      · rw [hmatch]
        try simp [hdim]

/-- Witness for C10: a record whose dimension insert fails against an empty
store writes no fact row. -/
theorem fact_insert_resolution_witness :
    (stepV4 { dim := true } 0 { name := some "X", source_url := some "u" }
        (initV4 {})).db.conds = [] :=
  fact_insert_requires_resolved_beach.2.2.2 { dim := true } 0
    { name := some "X", source_url := some "u" } (initV4 {}) (by decide) rfl
